import Mathlib

/-!
Shallow embedding of the tile acquisition coordinator of
`src/source/vector_tile_source.js` together with the metadata loader of
`src/source/load_tilejson.js`, and theorems checking the specification's
claims about them.

The coordinator's effects (worker messages, inline fetches, callback
invocations, tile mutations) are made explicit: each operation returns the
updated tile together with the list of externally visible actions it
performs, in program order.
-/

namespace VectorTileSpec

/-- Tile lifecycle states (spec section 3). -/
inductive TileState
  | idle
  | loading
  | loaded
  | reloading
  | expired
  | unloaded
deriving DecidableEq, Repr

/-- An error carried by a completion; `status` is the HTTP status tested by
`err.status !== 404` in `done`. -/
structure Err where
  status : Nat
deriving DecidableEq, Repr

/-- The `params.data` payload attached to a `loadTile` message on the
worker-cold path: `{cacheControl, expires, rawData}` built from the inline
fetch result so the worker does not re-fetch the bytes. -/
structure PayloadData where
  cacheControl : Option String
  expires : Option String
  rawData : List Nat
deriving DecidableEq, Repr

/-- Completion data (`LoadVectorTileResult`): raw bytes plus cache metadata
and optional resource timing. -/
structure VTData where
  cacheControl : Option String
  expires : Option String
  rawData : List Nat
  resourceTiming : Option (List Nat)
deriving DecidableEq, Repr

/-- The mutable tile entity as seen by the coordinator: lifecycle state, the
bound worker actor, the owned request handle, the aborted flag, the single
pending-reload callback slot, and resource-timing bookkeeping. Actors,
request handles and callbacks are identified by numbers. -/
structure Tile where
  state : TileState
  actor : Option Nat
  request : Option Nat
  aborted : Bool
  reloadCallback : Option Nat
  resourceTiming : Option (List Nat)
deriving DecidableEq, Repr

/-- Externally visible actions of the coordinator, in program order:
worker messages (with the callback that the bound `done` will deliver to),
the inline deduplicated fetch of the worker-cold path, callback invocations,
and the tile consumer contract calls. -/
inductive Action
  | sendLoadTile (actorId cb : Nat) (data : Option PayloadData)
  | sendReloadTile (actorId cb : Nat)
  | dedupFetch (cb : Nat)
  | invoke (cb : Nat) (err : Option Err)
  | loadVectorData (data : Option VTData)
  | setExpiry (data : VTData)
  | setResourceTiming (rt : List Nat)
  | cacheEntryAdded
deriving DecidableEq, Repr

/-- Ambient context of one `loadTile`/`done` call: dispatcher readiness,
the map's refresh-expired-tiles flag, the actor that
`this._tileWorkers[url] || this.dispatcher.getActor()` yields for the
tile's URL, and the handle a fresh dispatch stores in `tile.request`. -/
structure Env where
  ready : Bool
  refreshExpiredTiles : Bool
  workerActor : Nat
  freshRequest : Nat
deriving DecidableEq, Repr

/-- Dispatch part of `VectorTileSource.loadTile` (vector_tile_source.js,
lines 216-247). Branch order as in the source: fresh dispatch when the tile
has no actor or its state is `expired` (worker-cold path performs the
deduplicated inline fetch instead of sending at once); a `loading` tile only
stores the callback in the pending-reload slot; otherwise a `reloadTile`
message goes to the existing actor. The `state := loading` transition on a
fresh dispatch is Modelled from the spec: tile.js, which owns the state
field, is not part of the observed slice, and spec section 4.3 states the
tile transitions to `loading` regardless of path chosen. -/
def loadTile (env : Env) (tile : Tile) (cb : Nat) : Tile × List Action :=
  if tile.actor = none ∨ tile.state = TileState.expired then
    if env.ready then
      ({ tile with actor := some env.workerActor,
                   request := some env.freshRequest,
                   state := TileState.loading },
       [Action.sendLoadTile env.workerActor cb none])
    else
      ({ tile with actor := some env.workerActor,
                   request := some env.freshRequest,
                   state := TileState.loading },
       [Action.dedupFetch cb])
  else if tile.state = TileState.loading then
    ({ tile with reloadCallback := some cb }, [])
  else
    match tile.actor with
    | some a => ({ tile with request := some env.freshRequest }, [Action.sendReloadTile a cb])
    | none => (tile, [])

/-- Success continuation of `done` (everything after the error guard):
resource-timing update when the data carries one, expiry update when
enabled, `loadVectorData`, cache bookkeeping, delivery of `callback(null)`,
and the re-issue of a queued pending reload. The `state := loaded` effect of
`tile.loadVectorData` is Modelled from the spec: tile.js is not in the
observed slice, and the spec's lifecycle has the tile materialize as
`loaded` on completion. -/
def doneSuccess (env : Env) (t0 : Tile) (cb : Nat) (data : Option VTData) : Tile × List Action :=
  let rtActs : List Action :=
    match data with
    | some d =>
      match d.resourceTiming with
      | some rt => [Action.setResourceTiming rt]
      | none => []
    | none => []
  let t1 : Tile :=
    match data with
    | some d =>
      match d.resourceTiming with
      | some rt => { t0 with resourceTiming := some rt }
      | none => t0
    | none => t0
  let expiryActs : List Action :=
    match data with
    | some d => if env.refreshExpiredTiles then [Action.setExpiry d] else []
    | none => []
  let t2 : Tile := { t1 with state := TileState.loaded }
  let mainActs : List Action :=
    rtActs ++ expiryActs ++
      [Action.loadVectorData data, Action.cacheEntryAdded, Action.invoke cb none]
  match t2.reloadCallback with
  | some rcb =>
    let nxt := loadTile env t2 rcb
    ({ nxt.1 with reloadCallback := none }, mainActs ++ nxt.2)
  | none => (t2, mainActs)

/-- The `done` completion handler of `VectorTileSource.loadTile`
(vector_tile_source.js, lines 249-273): clears the request handle, swallows
completions on aborted tiles with a null-error delivery, propagates errors
whose status is not 404, and otherwise proceeds with the success
continuation. -/
def done (env : Env) (tile : Tile) (cb : Nat) (err : Option Err) (data : Option VTData) :
    Tile × List Action :=
  let t0 : Tile := { tile with request := none }
  if t0.aborted then (t0, [Action.invoke cb none])
  else
    match err with
    | some e =>
      if e.status ≠ 404 then (t0, [Action.invoke cb (some e)])
      else doneSuccess env t0 cb data
    | none => doneSuccess env t0 cb data

/-- The inner callback of the worker-cold path (vector_tile_source.js,
lines 222-234): on error or missing data it runs `done` with the error and
no data; on success it attaches the fetched bytes and cache metadata as the
message payload and sends `loadTile` to the tile's actor (if one is still
bound), so the worker skips the network request. -/
def coldFetchDone (env : Env) (tile : Tile) (cb : Nat) (err : Option Err)
    (data : Option VTData) : Tile × List Action :=
  if err.isSome ∨ data.isNone then
    done env tile cb err none
  else
    match data with
    | some d =>
      match tile.actor with
      | some a =>
        (tile,
         [Action.sendLoadTile a cb
           (some { cacheControl := d.cacheControl, expires := d.expires, rawData := d.rawData })])
      | none => (tile, [])
    | none => (tile, [])

/-- An action that initiates a raw network fetch for the tile: a fresh
`loadTile` dispatch (the worker fetches) or the inline deduplicated fetch.
A `reloadTile` message is revalidation, not a raw refetch (spec 4.3). -/
def isNetworkFetch : Action → Bool
  | Action.sendLoadTile _ _ _ => true
  | Action.dedupFetch _ => true
  | _ => false

/-- A ready-dispatcher environment used for concrete runs. -/
def envReady : Env :=
  { ready := true, refreshExpiredTiles := false, workerActor := 0, freshRequest := 1 }

/-- A fresh tile: idle, no actor, no request, not aborted. -/
def freshTile : Tile :=
  { state := TileState.idle, actor := none, request := none, aborted := false,
    reloadCallback := none, resourceTiming := none }

/-- Concrete completion data for scenario runs. -/
def sampleData : VTData :=
  { cacheControl := none, expires := none, rawData := [0], resourceTiming := none }

/-- Concrete overlapping-load scenario: `loadTile` is called twice on one
fresh tile (callbacks 1 and 2) while the first request is in flight; the
in-flight request then completes, and the re-issued request completes. The
trace is the concatenation of all emitted actions. -/
def overlapTrace : List Action :=
  let s1 := loadTile envReady freshTile 1
  let s2 := loadTile envReady s1.1 2
  let s3 := done envReady s2.1 1 none (some sampleData)
  let s4 := done envReady s3.1 2 none (some sampleData)
  s1.2 ++ s2.2 ++ s3.2 ++ s4.2

/-- A loading tile with a bound actor whose completion arrives as a 404
error, with no reload queued. -/
def t404 : Tile :=
  { state := TileState.loading, actor := some 0, request := some 1, aborted := false,
    reloadCallback := none, resourceTiming := none }

/-- C1 counterexample: a completion carrying a 404 error on a non-aborted
tile is NOT propagated to the caller's callback as a fatal error. The
handler proceeds down the success path: `loadVectorData` runs and the
callback receives a null error, never the 404 error itself, contradicting
the claim that a 404 is propagated like any other error. -/
theorem done_404_not_propagated_cx :
    (done envReady t404 0 (some { status := 404 }) none).2 =
      [Action.loadVectorData none, Action.cacheEntryAdded, Action.invoke 0 none] ∧
    Action.invoke 0 (some { status := 404 }) ∉ (done envReady t404 0 (some { status := 404 }) none).2 := by
  decide

/-- C1 amended: on a non-aborted tile with no queued reload, a completion
whose error has status 404 is swallowed: the request handle is cleared, the
tile proceeds exactly as on an empty success (`loadVectorData` with no
data, cache bookkeeping, callback delivered with a null error), and no
resource-timing update occurs (an error completion carries no data). -/
theorem done_404_swallowed (env : Env) (t : Tile) (cb : Nat) (e : Err)
    (hab : t.aborted = false) (hrc : t.reloadCallback = none) (h404 : e.status = 404) :
    done env t cb (some e) none =
      ({ t with request := none, state := TileState.loaded },
       [Action.loadVectorData none, Action.cacheEntryAdded, Action.invoke cb none]) := by
  simp only [done, doneSuccess, h404, hab, hrc]
  simp

/-- Witness for `done_404_swallowed` at a concrete tile and error. -/
theorem done_404_swallowed_witness :
    done envReady t404 0 (some { status := 404 }) none =
      ({ t404 with request := none, state := TileState.loaded },
       [Action.loadVectorData none, Action.cacheEntryAdded, Action.invoke 0 none]) :=
  done_404_swallowed envReady t404 0 { status := 404 } rfl rfl rfl

/-- C2: a further `loadTile` on a tile whose state is `loading` (a request
in flight, so an actor is bound) performs no action at all — no fetch, no
worker message — and only stores the callback in the single pending-reload
slot; a third call during the same window overwrites that slot,
last-writer-wins. -/
theorem loadTile_loading_no_dispatch (env : Env) (t : Tile) (cb cb2 a : Nat)
    (hst : t.state = TileState.loading) (hac : t.actor = some a) :
    loadTile env t cb = ({ t with reloadCallback := some cb }, []) ∧
    loadTile env { t with reloadCallback := some cb } cb2 =
      ({ t with reloadCallback := some cb2 }, []) := by
  constructor
  · simp [loadTile, hst, hac]
  · simp [loadTile, hst, hac]

/-- Witness for `loadTile_loading_no_dispatch` at a concrete loading tile. -/
theorem loadTile_loading_no_dispatch_witness :
    loadTile envReady t404 1 = ({ t404 with reloadCallback := some 1 }, []) ∧
    loadTile envReady { t404 with reloadCallback := some 1 } 2 =
      ({ t404 with reloadCallback := some 2 }, []) :=
  loadTile_loading_no_dispatch envReady t404 1 2 0 rfl rfl

/-- C4: every completion clears the tile's stored request handle, and a
completion on a tile marked aborted delivers a null error to the callback
and performs nothing else: no error propagation, no resource-timing or
expiry update, no `loadVectorData`, no pending-reload re-issue. When no
reload is queued, the final tile's request handle is cleared on every
path. -/
theorem done_clears_request_and_abort_noop (env : Env) (t : Tile) (cb : Nat)
    (err : Option Err) (data : Option VTData) :
    (t.aborted = true →
      done env t cb err data = ({ t with request := none }, [Action.invoke cb none])) ∧
    (t.reloadCallback = none → (done env t cb err data).1.request = none) := by
  constructor
  · intro hab
    simp [done, hab]
  · intro hrc
    simp only [done, doneSuccess, hrc]
    rcases hab : t.aborted with _ | _
    · rcases err with _ | e
      · rcases data with _ | d
        · simp
        · rcases hrt : d.resourceTiming with _ | rt <;> simp [hrt]
      · rcases h4 : decide (e.status = 404) with _ | _
        · simp at h4
          simp [h4]
        · simp at h4
          rcases data with _ | d
          · simp [h4]
          · rcases hrt : d.resourceTiming with _ | rt <;> simp [h4, hrt]
    · simp

/-- Witness for `done_clears_request_and_abort_noop` on a concrete aborted
tile. -/
theorem done_clears_request_and_abort_noop_witness :
    ((t404.aborted = true →
      done envReady t404 3 none none = ({ t404 with request := none }, [Action.invoke 3 none])) ∧
     (t404.reloadCallback = none → (done envReady t404 3 none none).1.request = none)) ∧
    (done envReady t404 3 none none).1.request = none :=
  ⟨done_clears_request_and_abort_noop envReady t404 3 none none,
   (done_clears_request_and_abort_noop envReady t404 3 none none).2 rfl⟩

/-- The in-flight tile of `t404` with a reload callback queued. -/
def tReload : Tile := { t404 with reloadCallback := some 2 }

/-- C3 counterexample: a non-404 error completion on a non-aborted tile
with a queued reload callback returns at the error guard: the only action
is the delivery of the error to the original callback — the queued reload
callback is NOT re-issued through a fresh `loadTile` (no dispatch action
is emitted for it) and the pending-reload slot is NOT cleared,
contradicting the claim for this completion. -/
theorem done_error_skips_reload_cx :
    done envReady tReload 1 (some { status := 500 }) none =
      ({ tReload with request := none }, [Action.invoke 1 (some { status := 500 })]) ∧
    (done envReady tReload 1 (some { status := 500 }) none).1.reloadCallback = some 2 ∧
    Action.sendReloadTile 0 2 ∉ (done envReady tReload 1 (some { status := 500 }) none).2 ∧
    Action.sendLoadTile 0 2 none ∉ (done envReady tReload 1 (some { status := 500 }) none).2 ∧
    Action.dedupFetch 2 ∉ (done envReady tReload 1 (some { status := 500 }) none).2 := by
  decide

/-- C3 amended: on a non-aborted completion that passes the error guard
(no error, or a swallowed 404), after the main completion sequence — which
ends with the original callback's delivery — a queued pending-reload
callback is immediately re-issued through a fresh `loadTile` on the
completed tile and the queue slot is cleared: `done` on a tile with a
queued reload equals `done` without the queued reload followed by
`loadTile` with the queued callback, with an empty slot in the final tile.
On a propagated (non-404) error completion the handler returns at the
error guard, so the queued reload is neither re-issued nor cleared.
Consequently, in the concrete overlapping-load scenario two `loadTile`
calls on one tile whose in-flight request completes successfully produce
exactly one network fetch and both callbacks are invoked. -/
theorem done_reissues_pending_reload :
    (∀ (env : Env) (t : Tile) (cb rcb : Nat) (data : Option VTData),
      t.aborted = false → t.reloadCallback = some rcb →
      done env t cb none data =
        ({ (loadTile env (done env { t with reloadCallback := none } cb none data).1 rcb).1
            with reloadCallback := none },
         (done env { t with reloadCallback := none } cb none data).2 ++
           (loadTile env (done env { t with reloadCallback := none } cb none data).1 rcb).2)) ∧
    (∀ (env : Env) (t : Tile) (cb rcb : Nat) (e : Err) (data : Option VTData),
      t.aborted = false → t.reloadCallback = some rcb → e.status = 404 →
      done env t cb (some e) data =
        ({ (loadTile env (done env { t with reloadCallback := none } cb (some e) data).1 rcb).1
            with reloadCallback := none },
         (done env { t with reloadCallback := none } cb (some e) data).2 ++
           (loadTile env (done env { t with reloadCallback := none } cb (some e) data).1 rcb).2)) ∧
    (∀ (env : Env) (t : Tile) (cb rcb : Nat) (e : Err) (data : Option VTData),
      t.aborted = false → t.reloadCallback = some rcb → e.status ≠ 404 →
      done env t cb (some e) data =
        ({ t with request := none }, [Action.invoke cb (some e)]) ∧
      (done env t cb (some e) data).1.reloadCallback = some rcb) ∧
    ((overlapTrace.filter isNetworkFetch).length = 1 ∧
     Action.invoke 1 none ∈ overlapTrace ∧ Action.invoke 2 none ∈ overlapTrace) := by
  refine ⟨?_, ?_, ?_, by decide, by decide, by decide⟩
  · intro env t cb rcb data hab hrc
    simp only [done, doneSuccess, hab, hrc]
    rcases data with _ | d
    · rcases hA : t.actor with _ | a <;> rcases hR : env.ready with _ | _ <;>
        simp [loadTile, hA, hR]
    · rcases hrt : d.resourceTiming with _ | rt <;>
        rcases hA : t.actor with _ | a <;> rcases hR : env.ready with _ | _ <;>
          simp [loadTile, hrt, hA, hR]
  · intro env t cb rcb e data hab hrc h404
    simp only [done, doneSuccess, hab, hrc, h404]
    rcases data with _ | d
    · rcases hA : t.actor with _ | a <;> rcases hR : env.ready with _ | _ <;>
        simp [loadTile, hA, hR]
    · rcases hrt : d.resourceTiming with _ | rt <;>
        rcases hA : t.actor with _ | a <;> rcases hR : env.ready with _ | _ <;>
          simp [loadTile, hrt, hA, hR]
  · intro env t cb rcb e data hab hrc hne
    constructor
    · simp [done, hab, hne]
    · simp [done, hab, hne, hrc]

/-- Witness for `done_reissues_pending_reload` at a concrete tile with a
queued reload callback, on a success completion and on a propagated error
completion. -/
theorem done_reissues_pending_reload_witness :
    (done envReady tReload 1 none (some sampleData) =
      ({ (loadTile envReady
            (done envReady { tReload with reloadCallback := none } 1 none (some sampleData)).1 2).1
          with reloadCallback := none },
       (done envReady { tReload with reloadCallback := none } 1 none (some sampleData)).2 ++
         (loadTile envReady
           (done envReady { tReload with reloadCallback := none } 1 none (some sampleData)).1 2).2)) ∧
    (done envReady tReload 1 (some { status := 500 }) none =
      ({ tReload with request := none }, [Action.invoke 1 (some { status := 500 })]) ∧
     (done envReady tReload 1 (some { status := 500 }) none).1.reloadCallback = some 2) :=
  ⟨done_reissues_pending_reload.1 envReady tReload 1 2 (some sampleData) rfl rfl,
   done_reissues_pending_reload.2.2.1 envReady tReload 1 2 { status := 500 } none rfl rfl
     (by decide)⟩

/-- A cold-dispatcher environment used for concrete runs. -/
def envCold : Env :=
  { ready := false, refreshExpiredTiles := false, workerActor := 0, freshRequest := 2 }

/-- C5 counterexample: when the inline fetch of the worker-cold path fails
with a 404, the completion callback does NOT receive the error as the claim
states: the handler swallows the 404 and the callback is invoked with a
null error. -/
theorem cold_404_callback_null_cx :
    (coldFetchDone envCold t404 0 (some { status := 404 }) none).2 =
      [Action.loadVectorData none, Action.cacheEntryAdded, Action.invoke 0 none] ∧
    Action.invoke 0 (some { status := 404 }) ∉
      (coldFetchDone envCold t404 0 (some { status := 404 }) none).2 := by
  decide

/-- C5 amended: when the dispatcher is not ready, `loadTile` performs only
the inline fetch through the deduplication table and sends no worker
message; if the inline fetch fails, no worker message is ever sent and the
callback receives the error — except a 404, which is delivered as a
null-error empty completion; if it succeeds, the single worker message
carries the already-fetched bytes plus cache metadata (cacheControl,
expires, rawData) so the worker does not re-fetch them. -/
theorem cold_path_no_message_until_fetch :
    (∀ (env : Env) (t : Tile) (cb : Nat), env.ready = false →
      (t.actor = none ∨ t.state = TileState.expired) →
      loadTile env t cb =
        ({ t with actor := some env.workerActor, request := some env.freshRequest,
                  state := TileState.loading },
         [Action.dedupFetch cb])) ∧
    (∀ (env : Env) (t : Tile) (cb : Nat) (e : Err) (data : Option VTData),
      e.status ≠ 404 → t.aborted = false →
      coldFetchDone env t cb (some e) data =
        ({ t with request := none }, [Action.invoke cb (some e)])) ∧
    (∀ (env : Env) (t : Tile) (cb : Nat) (e : Err) (data : Option VTData),
      e.status = 404 → t.aborted = false → t.reloadCallback = none →
      coldFetchDone env t cb (some e) data =
        ({ t with request := none, state := TileState.loaded },
         [Action.loadVectorData none, Action.cacheEntryAdded, Action.invoke cb none])) ∧
    (∀ (env : Env) (t : Tile) (cb a : Nat) (d : VTData), t.actor = some a →
      coldFetchDone env t cb none (some d) =
        (t, [Action.sendLoadTile a cb
              (some { cacheControl := d.cacheControl, expires := d.expires,
                      rawData := d.rawData })])) := by
  refine ⟨?_, ?_, ?_, ?_⟩
  · intro env t cb hready hor
    unfold loadTile
    rw [if_pos hor]
    simp [hready]
  · intro env t cb e data hne hab
    simp [coldFetchDone, done, hab, hne]
  · intro env t cb e data h404 hab hrc
    simp [coldFetchDone, done, doneSuccess, h404, hab, hrc]
  · intro env t cb a d hA
    simp [coldFetchDone, hA]

/-- Witness for `cold_path_no_message_until_fetch` at concrete tiles,
errors and data. -/
theorem cold_path_no_message_until_fetch_witness :
    loadTile envCold freshTile 0 =
      ({ freshTile with actor := some 0, request := some 2, state := TileState.loading },
       [Action.dedupFetch 0]) ∧
    coldFetchDone envCold t404 0 (some { status := 500 }) none =
      ({ t404 with request := none }, [Action.invoke 0 (some { status := 500 })]) ∧
    coldFetchDone envCold t404 0 none (some sampleData) =
      (t404, [Action.sendLoadTile 0 0
        (some { cacheControl := none, expires := none, rawData := [0] })]) :=
  ⟨cold_path_no_message_until_fetch.1 envCold freshTile 0 rfl (Or.inl rfl),
   cold_path_no_message_until_fetch.2.1 envCold t404 0 { status := 500 } none (by decide) rfl,
   cold_path_no_message_until_fetch.2.2.2 envCold t404 0 0 sampleData rfl⟩

/-- An expired tile that still has a bound actor. -/
def tExpired : Tile :=
  { state := TileState.expired, actor := some 3, request := none, aborted := false,
    reloadCallback := none, resourceTiming := none }

/-- C9 counterexample: a tile whose state is `expired` but which still has
a bound actor does NOT receive a `reloadTile` message on its existing
actor; it takes the fresh-dispatch branch (`!tile.actor || tile.state ===
'expired'`), rebinding the actor through the worker-assignment table and
sending a fresh `loadTile` message, contradicting the claim that only the
idle/expired-with-no-actor case receives a fresh dispatch. -/
theorem loadTile_expired_with_actor_cx :
    (loadTile envReady tExpired 0).2 = [Action.sendLoadTile 0 0 none] ∧
    Action.sendReloadTile 3 0 ∉ (loadTile envReady tExpired 0).2 ∧
    (loadTile envReady tExpired 0).1.actor = some 0 := by
  decide

/-- C9 amended: `loadTile` takes the fresh-dispatch branch exactly when the
tile has no bound actor or its state is `expired` (even with an actor
bound, an expired tile is re-dispatched fresh, rebinding its actor); a
`reloadTile` message goes to the tile's existing actor — bypassing the
deduplication table — precisely when an actor is bound and the state is
neither `loading` nor `expired`. -/
theorem loadTile_dispatch_branches :
    (∀ (env : Env) (t : Tile) (cb a : Nat),
      t.actor = some a → t.state ≠ TileState.loading → t.state ≠ TileState.expired →
      loadTile env t cb =
        ({ t with request := some env.freshRequest }, [Action.sendReloadTile a cb])) ∧
    (∀ (env : Env) (t : Tile) (cb : Nat),
      (t.actor = none ∨ t.state = TileState.expired) → env.ready = true →
      loadTile env t cb =
        ({ t with actor := some env.workerActor, request := some env.freshRequest,
                  state := TileState.loading },
         [Action.sendLoadTile env.workerActor cb none])) := by
  constructor
  · intro env t cb a hA hnl hne
    unfold loadTile
    rw [if_neg (by simp [hA, hne])]
    rw [if_neg hnl]
    simp [hA]
  · intro env t cb hor hready
    unfold loadTile
    rw [if_pos hor]
    simp [hready]

/-- A loaded tile with a bound actor. -/
def tLoaded : Tile :=
  { state := TileState.loaded, actor := some 5, request := none, aborted := false,
    reloadCallback := none, resourceTiming := none }

/-- Witness for `loadTile_dispatch_branches` at concrete tiles. -/
theorem loadTile_dispatch_branches_witness :
    loadTile envReady tLoaded 7 =
      ({ tLoaded with request := some 1 }, [Action.sendReloadTile 5 7]) ∧
    loadTile envReady freshTile 7 =
      ({ freshTile with actor := some 0, request := some 1, state := TileState.loading },
       [Action.sendLoadTile 0 7 none]) :=
  ⟨loadTile_dispatch_branches.1 envReady tLoaded 7 5 rfl (by decide) (by decide),
   loadTile_dispatch_branches.2 envReady freshTile 7 (Or.inl rfl) rfl⟩

/-! Metadata loader: embedding of `src/source/load_tilejson.js`. -/

/-- TileJSON keys: the ten keys recognized by the pick list of
load_tilejson.js, plus `other` for any unrecognized key of a fetched
document. -/
inductive Field
  | tiles
  | minzoom
  | maxzoom
  | attribution
  | mapbox_logo
  | bounds
  | scheme
  | tileSize
  | encoding
  | zoomoffset
  | other (key : String)
deriving DecidableEq, Repr

/-- A JSON field value, as far as the claims need to distinguish them. -/
inductive FieldVal
  | num (n : Int)
  | str (s : String)
  | strs (l : List String)
  | boolv (b : Bool)
deriving DecidableEq, Repr

/-- Whether a key is in the pick list of load_tilejson.js (line 30). -/
def recognizedField : Field → Bool
  | Field.other _ => false
  | _ => true

/-- A vector layer entry of a TileJSON `vector_layers` array. -/
structure VectorLayer where
  id : String
deriving DecidableEq, Repr

/-- A fetched TileJSON document: its keyed fields and its optional
`vector_layers` array. -/
structure TJDoc where
  fields : Field → Option FieldVal
  vector_layers : Option (List VectorLayer)

/-- The source options handed to the metadata loader: the optional metadata
URL and the explicit keyed fields. -/
structure MetaOptions where
  url : Option String
  fields : Field → Option FieldVal

/-- The merge `extend(tileJSON, options)` of util.js restricted to keyed
fields. Modelled from the spec: util.js is not in the observed slice;
explicit source options take precedence over fetched TileJSON fields. -/
def extendFields (tileJSON options : Field → Option FieldVal) : Field → Option FieldVal :=
  fun f =>
    match options f with
    | some v => some v
    | none => tileJSON f

/-- The `pick(obj, [...])` of util.js over the recognized-key list.
Modelled from the spec: util.js is not in the observed slice; only the
recognized TileJSON keys are kept. -/
def pickRecognized (m : Field → Option FieldVal) : Field → Option FieldVal :=
  fun f => if recognizedField f then m f else none

/-- The resolved descriptor delivered by the metadata loader. -/
structure MetaResult where
  fields : Field → Option FieldVal
  vectorLayers : Option (List VectorLayer)
  vectorLayerIds : Option (List String)

/-- The success branch of the `loaded` closure of load_tilejson.js (lines
26-39): pick the recognized keys of `extend(tileJSON, options)`, derive
`vectorLayers`/`vectorLayerIds` from `vector_layers` when present, and
canonicalize the tile URL templates. `canon` abstracts
`requestManager.canonicalizeTileset(result, options.url)`, which is
Modelled from the spec: mapbox.js is not in the observed slice; it rewrites
only the `tiles` entry against the fetch origin. -/
def loadedResult (canon : (Field → Option FieldVal) → Option String → Option FieldVal)
    (options : MetaOptions) (doc : TJDoc) : MetaResult :=
  let merged := pickRecognized (extendFields doc.fields options.fields)
  { fields := fun f => if f = Field.tiles then canon merged options.url else merged f,
    vectorLayers := doc.vector_layers,
    vectorLayerIds := doc.vector_layers.map (fun ls => ls.map (fun l => l.id)) }

/-- The whole `loaded` closure: an error is forwarded verbatim; a document
yields the resolved descriptor; no document and no error yields no callback
invocation at all. The return value is `none` when the callback is not
invoked, `some` of its two arguments when it is. -/
def loadedFn (canon : (Field → Option FieldVal) → Option String → Option FieldVal)
    (options : MetaOptions) (err : Option Err) (doc : Option TJDoc) :
    Option (Option Err × Option MetaResult) :=
  match err with
  | some e => some (some e, none)
  | none =>
    match doc with
    | some d => some (none, some (loadedResult canon options d))
    | none => none

/-- The execution path chosen by the default export of load_tilejson.js
(lines 43-47): a metadata URL yields a `getJSON` network fetch; an explicit
tile list (no URL) yields a `browser.frame` deferred call. -/
inductive MetaTask
  | fetchJSON (url : String)
  | frameTask
deriving DecidableEq, Repr

/-- Which task `loadTileJSON` starts for the given options. -/
def loadTileJSONTask (options : MetaOptions) : MetaTask :=
  match options.url with
  | some u => MetaTask.fetchJSON u
  | none => MetaTask.frameTask

/-- The options object reused as the TileJSON document on the no-fetch
path (`loaded(null, options)`): its keyed fields, no `vector_layers`. -/
def optionsAsDoc (options : MetaOptions) : TJDoc :=
  { fields := options.fields, vector_layers := none }

/-- Completion of a `loadTileJSON` request. Modelled from the spec: getJSON
(util/ajax.js) and browser.frame (util/browser.js) are not in the observed
slice; both return cancelable handles, and a handle cancelled before
completion never runs its callback. On the frame path the callback runs as
`loaded(null, options)`; on the fetch path it runs on the fetch outcome. -/
def runMetaRequest (canon : (Field → Option FieldVal) → Option String → Option FieldVal)
    (options : MetaOptions) (cancelledBefore : Bool)
    (fetchErr : Option Err) (fetchDoc : Option TJDoc) :
    Option (Option Err × Option MetaResult) :=
  if cancelledBefore then none
  else
    match loadTileJSONTask options with
    | MetaTask.frameTask => loadedFn canon options none (some (optionsAsDoc options))
    | MetaTask.fetchJSON _ => loadedFn canon options fetchErr fetchDoc

/-- A concrete canonicalization that leaves the tiles entry unchanged. -/
def canonId : (Field → Option FieldVal) → Option String → Option FieldVal :=
  fun m _ => m Field.tiles

/-- Explicit options carrying only `minzoom: 3`. -/
def optsMin3 : MetaOptions :=
  { url := none,
    fields := fun f => if f = Field.minzoom then some (FieldVal.num 3) else none }

/-- A fetched document carrying `minzoom: 0, maxzoom: 14`. -/
def docMin0Max14 : TJDoc :=
  { fields := fun f =>
      if f = Field.minzoom then some (FieldVal.num 0)
      else if f = Field.maxzoom then some (FieldVal.num 14)
      else none,
    vector_layers := none }

/-- C6: for every recognized descriptor field other than the canonicalized
`tiles` entry, the resolved descriptor takes the explicit option's value
whenever the option defines the field, and retains the fetched document's
value when only the document defines it; in particular explicit
`{minzoom: 3}` merged with fetched `{minzoom: 0, maxzoom: 14}` resolves to
minzoom 3 and maxzoom 14. -/
theorem tilejson_merge_precedence :
    (∀ (canon : (Field → Option FieldVal) → Option String → Option FieldVal)
       (options : MetaOptions) (doc : TJDoc) (f : Field) (v : FieldVal),
      recognizedField f = true → f ≠ Field.tiles → options.fields f = some v →
      (loadedResult canon options doc).fields f = some v) ∧
    (∀ (canon : (Field → Option FieldVal) → Option String → Option FieldVal)
       (options : MetaOptions) (doc : TJDoc) (f : Field),
      recognizedField f = true → f ≠ Field.tiles → options.fields f = none →
      (loadedResult canon options doc).fields f = doc.fields f) ∧
    ((loadedResult canonId optsMin3 docMin0Max14).fields Field.minzoom =
        some (FieldVal.num 3) ∧
     (loadedResult canonId optsMin3 docMin0Max14).fields Field.maxzoom =
        some (FieldVal.num 14)) := by
  refine ⟨?_, ?_, by decide, by decide⟩
  · intro canon options doc f v hrec hnt hopt
    simp [loadedResult, pickRecognized, extendFields, hrec, hnt, hopt]
  · intro canon options doc f hrec hnt hopt
    simp [loadedResult, pickRecognized, extendFields, hrec, hnt, hopt]

/-- Witness for `tilejson_merge_precedence` at the concrete example
options and document. -/
theorem tilejson_merge_precedence_witness :
    (loadedResult canonId optsMin3 docMin0Max14).fields Field.minzoom =
      some (FieldVal.num 3) ∧
    (loadedResult canonId optsMin3 docMin0Max14).fields Field.maxzoom =
      docMin0Max14.fields Field.maxzoom :=
  ⟨tilejson_merge_precedence.1 canonId optsMin3 docMin0Max14 Field.minzoom
      (FieldVal.num 3) rfl (by decide) rfl,
   tilejson_merge_precedence.2.1 canonId optsMin3 docMin0Max14 Field.maxzoom
      rfl (by decide) rfl⟩

/-- C7: when the options carry no metadata URL, the loader starts a
deferred animation-frame task, not a network fetch, and on the frame firing
it delivers the options-derived descriptor with a null error regardless of
any fetch outcome; on both paths, a request cancelled before completion
never invokes the callback. -/
theorem loadTileJSON_no_url_frame_path :
    (∀ options : MetaOptions, options.url = none →
      loadTileJSONTask options = MetaTask.frameTask) ∧
    (∀ (canon : (Field → Option FieldVal) → Option String → Option FieldVal)
       (options : MetaOptions) (e : Option Err) (d : Option TJDoc),
      options.url = none →
      runMetaRequest canon options false e d =
        some (none, some (loadedResult canon options (optionsAsDoc options)))) ∧
    (∀ (canon : (Field → Option FieldVal) → Option String → Option FieldVal)
       (options : MetaOptions) (e : Option Err) (d : Option TJDoc),
      runMetaRequest canon options true e d = none) := by
  refine ⟨?_, ?_, ?_⟩
  · intro options h
    simp [loadTileJSONTask, h]
  · intro canon options e d h
    simp [runMetaRequest, loadTileJSONTask, h, loadedFn]
  · intro canon options e d
    simp [runMetaRequest]

/-- Witness for `loadTileJSON_no_url_frame_path` at the concrete
no-URL options. -/
theorem loadTileJSON_no_url_frame_path_witness :
    loadTileJSONTask optsMin3 = MetaTask.frameTask ∧
    runMetaRequest canonId optsMin3 false none none =
      some (none, some (loadedResult canonId optsMin3 (optionsAsDoc optsMin3))) ∧
    runMetaRequest canonId optsMin3 true none none = none :=
  ⟨loadTileJSON_no_url_frame_path.1 optsMin3 rfl,
   loadTileJSON_no_url_frame_path.2.1 canonId optsMin3 none none rfl,
   loadTileJSON_no_url_frame_path.2.2 canonId optsMin3 none none⟩

/-! Source lifecycle: `setSourceProperty`, `setUrl`, `setTiles`, `load`,
and metadata-fetch completion (vector_tile_source.js, lines 106-182). -/

/-- Source-level state: the in-flight metadata request handle, the loaded
flag, the set of cancelled request handles, the requests whose results were
applied, the tiles held by each dependent source cache, and a counter
minting fresh request handles. -/
structure SourceState where
  tileJSONRequest : Option Nat
  loadedFlag : Bool
  cancelled : List Nat
  applied : List Nat
  caches : List (List Nat)
  nextReq : Nat
deriving DecidableEq, Repr

/-- `load()` (lines 106-126): clears the loaded flag and issues a fresh
metadata request, storing its handle in `_tileJSONRequest`. -/
def loadSource (s : SourceState) : SourceState :=
  { s with loadedFlag := false, tileJSONRequest := some s.nextReq, nextReq := s.nextReq + 1 }

/-- `setSourceProperty` (lines 141-153): cancels the in-flight metadata
request if any, clears the tiles of every dependent source cache, and
re-runs `load()`. The option-mutating callback it runs does not touch the
modelled state. -/
def setSourceProperty (s : SourceState) : SourceState :=
  let s1 :=
    match s.tileJSONRequest with
    | some r => { s with cancelled := r :: s.cancelled }
    | none => s
  let s2 := { s1 with caches := s1.caches.map (fun _ => []) }
  loadSource s2

/-- `setUrl` (lines 175-182) delegates to `setSourceProperty`. -/
def setUrl (s : SourceState) : SourceState := setSourceProperty s

/-- `setTiles` (lines 161-167) delegates to `setSourceProperty`. -/
def setTiles (s : SourceState) : SourceState := setSourceProperty s

/-- Completion of the metadata request `r`: the callback applies its result
unconditionally (clearing the handle, setting the loaded flag, and on
success recording the applied result) unless the request was cancelled, in
which case nothing runs. The suppression is Modelled from the spec: getJSON
and browser.frame (not in the observed slice) return cancelable handles
whose callback never runs once cancelled. -/
def completeTileJSON (s : SourceState) (r : Nat) (ok : Bool) : SourceState :=
  if r ∈ s.cancelled then s
  else
    { s with tileJSONRequest := none, loadedFlag := true,
             applied := if ok then r :: s.applied else s.applied }

/-- C8: a `setUrl` (equally `setTiles`) issued while metadata request `r`
is in flight cancels `r`, clears every dependent source cache, re-enters
the loading state with a freshly issued metadata request, and the
superseded request never applies its result: completing a cancelled
request changes nothing. -/
theorem setUrl_cancels_stale_fetch (s : SourceState) (r : Nat)
    (hreq : s.tileJSONRequest = some r) :
    r ∈ (setUrl s).cancelled ∧
    (setUrl s).caches.all List.isEmpty = true ∧
    (setUrl s).loadedFlag = false ∧
    (setUrl s).tileJSONRequest = some s.nextReq ∧
    setTiles s = setUrl s ∧
    (∀ (t : SourceState) (ok : Bool), r ∈ t.cancelled → completeTileJSON t r ok = t) := by
  refine ⟨?_, ?_, ?_, ?_, rfl, ?_⟩
  · simp [setUrl, setSourceProperty, loadSource, hreq]
  · simp [setUrl, setSourceProperty, loadSource, hreq, List.all_eq_true]
  · simp [setUrl, setSourceProperty, loadSource, hreq]
  · simp [setUrl, setSourceProperty, loadSource, hreq]
  · intro t ok hc
    simp [completeTileJSON, hc]

/-- A source state with metadata request 4 in flight and two caches holding
tiles. -/
def sPending : SourceState :=
  { tileJSONRequest := some 4, loadedFlag := false, cancelled := [], applied := [],
    caches := [[10, 11], [12]], nextReq := 5 }

/-- Witness for `setUrl_cancels_stale_fetch` at a concrete pending state. -/
theorem setUrl_cancels_stale_fetch_witness :
    (4 ∈ (setUrl sPending).cancelled ∧
     (setUrl sPending).caches.all List.isEmpty = true ∧
     (setUrl sPending).loadedFlag = false ∧
     (setUrl sPending).tileJSONRequest = some 5 ∧
     setTiles sPending = setUrl sPending ∧
     (∀ (t : SourceState) (ok : Bool), 4 ∈ t.cancelled → completeTileJSON t 4 ok = t)) ∧
    completeTileJSON (setUrl sPending) 4 true = setUrl sPending :=
  ⟨setUrl_cancels_stale_fetch sPending 4 rfl,
   (setUrl_cancels_stale_fetch sPending 4 rfl).2.2.2.2.2 (setUrl sPending) true
     (setUrl_cancels_stale_fetch sPending 4 rfl).1⟩

/-! Constructor: `VectorTileSource.constructor`
(vector_tile_source.js, lines 76-104). -/

/-- The constructor options, restricted to the keys the constructor picks:
`['url', 'scheme', 'tileSize', 'promoteId', 'zoomoffset']`. -/
structure VTSOptions where
  url : Option String
  scheme : Option String
  tileSize : Option Nat
  promoteId : Option String
  zoomoffset : Option Int
deriving DecidableEq, Repr

/-- The constructed source's fields, as initialized by the constructor. -/
structure VTS where
  minzoom : Nat
  maxzoom : Nat
  scheme : String
  tileSize : Nat
  zoomoffset : Int
  url : Option String
  promoteId : Option String
  reparseOverscaled : Bool
  isTileClipped : Bool
  loadedFlag : Bool
  tileWorkers : List (String × Nat)
  dedupedFresh : Bool
deriving DecidableEq, Repr

/-- The `VectorTileSource` constructor: sets the defaults, overlays the
picked explicit options (`extend(this, pick(options, [...]))`), and throws
exactly when the resulting tileSize differs from 512; otherwise the worker
assignment table starts empty and a fresh deduplication table is
allocated. -/
def vtsConstruct (o : VTSOptions) : Except String VTS :=
  let s : VTS :=
    { minzoom := 0, maxzoom := 22, scheme := "xyz", tileSize := 512, zoomoffset := 0,
      url := none, promoteId := none, reparseOverscaled := true, isTileClipped := true,
      loadedFlag := false, tileWorkers := [], dedupedFresh := true }
  let s : VTS :=
    { s with
      url := match o.url with | some u => some u | none => s.url,
      scheme := match o.scheme with | some v => v | none => s.scheme,
      tileSize := match o.tileSize with | some v => v | none => s.tileSize,
      promoteId := match o.promoteId with | some p => some p | none => s.promoteId,
      zoomoffset := match o.zoomoffset with | some v => v | none => s.zoomoffset }
  if s.tileSize ≠ 512 then Except.error "vector tile sources must have a tileSize of 512"
  else Except.ok s

/-- Whether a constructor run threw. -/
def vtsThrew (r : Except String VTS) : Bool :=
  match r with
  | Except.error _ => true
  | Except.ok _ => false

/-- C10: the constructor throws exactly when the resolved tileSize (the
explicit option when present, otherwise the default 512) differs from 512;
when it does not throw, the source starts with minzoom 0, maxzoom 22,
tileSize 512, an empty worker-assignment table and a fresh deduplication
table, and with the defaults scheme `xyz` and zoomoffset 0 whenever the
explicit options do not override them. -/
theorem vtsConstruct_spec (o : VTSOptions) :
    (vtsThrew (vtsConstruct o) = true ↔ o.tileSize.getD 512 ≠ 512) ∧
    (∀ s : VTS, vtsConstruct o = Except.ok s →
      s.minzoom = 0 ∧ s.maxzoom = 22 ∧ s.tileSize = 512 ∧
      s.tileWorkers = [] ∧ s.dedupedFresh = true ∧
      (o.scheme = none → s.scheme = "xyz") ∧
      (o.zoomoffset = none → s.zoomoffset = 0)) := by
  constructor
  · rcases hts : o.tileSize with _ | n
    · simp [vtsConstruct, vtsThrew, hts]
    · rcases hn : decide (n = 512) with _ | _
      · simp at hn
        simp [vtsConstruct, vtsThrew, hts, hn]
      · simp at hn
        simp [vtsConstruct, vtsThrew, hts, hn]
  · intro s hs
    rcases hts : o.tileSize with _ | n
    · simp [vtsConstruct, hts] at hs
      subst hs
      refine ⟨rfl, rfl, rfl, rfl, rfl, ?_, ?_⟩
      · intro hsch
        simp [hsch]
      · intro hzo
        simp [hzo]
    · rcases hn : decide (n = 512) with _ | _
      · simp at hn
        simp [vtsConstruct, hts, hn] at hs
      · simp at hn
        subst hn
        simp [vtsConstruct, hts] at hs
        subst hs
        refine ⟨rfl, rfl, rfl, rfl, rfl, ?_, ?_⟩
        · intro hsch
          simp [hsch]
        · intro hzo
          simp [hzo]

/-- Default options: every field absent. -/
def vtsDefaultOptions : VTSOptions :=
  { url := none, scheme := none, tileSize := none, promoteId := none, zoomoffset := none }

/-- The source produced by the constructor on the default options. -/
def vtsDefaultResult : VTS :=
  { minzoom := 0, maxzoom := 22, scheme := "xyz", tileSize := 512, zoomoffset := 0,
    url := none, promoteId := none, reparseOverscaled := true, isTileClipped := true,
    loadedFlag := false, tileWorkers := [], dedupedFresh := true }

/-- Witness for `vtsConstruct_spec` at the default options and at an
options record with an invalid tileSize. -/
theorem vtsConstruct_spec_witness :
    (vtsThrew (vtsConstruct vtsDefaultOptions) = true ↔
      vtsDefaultOptions.tileSize.getD 512 ≠ 512) ∧
    (vtsDefaultResult.minzoom = 0 ∧ vtsDefaultResult.maxzoom = 22 ∧
     vtsDefaultResult.tileSize = 512 ∧ vtsDefaultResult.tileWorkers = [] ∧
     vtsDefaultResult.dedupedFresh = true ∧
     (vtsDefaultOptions.scheme = none → vtsDefaultResult.scheme = "xyz") ∧
     (vtsDefaultOptions.zoomoffset = none → vtsDefaultResult.zoomoffset = 0)) ∧
    vtsThrew (vtsConstruct { vtsDefaultOptions with tileSize := some 256 }) = true :=
  ⟨(vtsConstruct_spec vtsDefaultOptions).1,
   (vtsConstruct_spec vtsDefaultOptions).2 vtsDefaultResult rfl,
   ((vtsConstruct_spec { vtsDefaultOptions with tileSize := some 256 }).1).2 (by decide)⟩

end VectorTileSpec
